import Mathlib

/-!
# Verification of the rsync-docker Transfer Orchestrator

Shallow embedding of the core logic of `src/managers/sync_manager.py`
(class `SyncManager`) and `src/utils/sync_utils.py`, together with
theorems settling the specification claims.

Strings are modelled as `List Char` (`Line`); Python text operations
(`str.strip`, `str.split`, the concrete regular-expression searches used
by the source) are embedded as executable Lean functions.  Python
exceptions escaping a function are modelled by an `Option` result
(`none` = the function raised).
-/

namespace RsyncDocker

abbrev Line := List Char

/-- Characters treated as whitespace by Python's `str.strip()` and by the
regex class `\s` (ASCII part plus the common Unicode additions; every
claim-relevant input is ASCII). -/
def pyWs (c : Char) : Bool :=
  c = ' ' || c = '\t' || c = '\n' || c = '\r' || c = '\x0b' || c = '\x0c' ||
  c = '\x1c' || c = '\x1d' || c = '\x1e' || c = '\x1f' || c = '\x85' ||
  c = '\xa0' || c = ' ' || c = ' '

/-- Python `str.strip()`: drop leading and trailing whitespace. -/
def pyStrip (l : Line) : Line :=
  ((l.dropWhile pyWs).reverse.dropWhile pyWs).reverse

/-- Python `str.split('\n')` behaviour: `"".split('\n') = [""]`, separators kept empty. -/
def splitOnNl : Line → List Line
  | [] => [[]]
  | c :: rest =>
    let r := splitOnNl rest
    if c = '\n' then [] :: r
    else
      match r with
      | [] => [[c]]
      | h :: t => (c :: h) :: t

/-- Python `pat in line` (substring containment, `pat` nonempty in all uses). -/
def containsSub (pat : Line) : Line → Bool
  | [] => pat.isPrefixOf []
  | c :: rest => pat.isPrefixOf (c :: rest) || containsSub pat rest

/-- Character class `[\d\.,]` from the statistics-line regexes. -/
def numRun (c : Char) : Bool := c.isDigit || c = '.' || c = ','

/-- Numeric value of a digit string (what Python `int` returns on it). -/
def digitsVal (ds : Line) : Nat :=
  ds.foldl (fun a c => a * 10 + (c.toNat - '0'.toNat)) 0

/-- Python `int(run.replace('.','').replace(',',''))` on a `[\d\.,]+` capture:
strip the separators; `int('')` raises (`none`). -/
def pyIntOfRun (run : Line) : Option Nat :=
  let ds := run.filter (fun c => !(c = '.') && !(c = ','))
  if ds.isEmpty then none else some (digitsVal ds)

/-- One position of `re.search(r'LABEL\s*([\d\.,]+)', line)`: match the
literal, skip the (maximal, since `\s` and `[\d\.,]` are disjoint)
whitespace run, take the greedy `[\d\.,]+` capture. -/
def matchAfterLabel (pat l : Line) : Option Line :=
  if pat.isPrefixOf l then
    let run := ((l.drop pat.length).dropWhile pyWs).takeWhile numRun
    if run.isEmpty then none else some run
  else none

/-- Leftmost match of `re.search(r'LABEL\s*([\d\.,]+)', line)`. -/
def searchLabelNum (pat : Line) : Line → Option Line
  | [] => matchAfterLabel pat []
  | c :: rest =>
    match matchAfterLabel pat (c :: rest) with
    | some run => some run
    | none => searchLabelNum pat rest

/-- One position of `re.search(r'LABEL\s*(\d+)', line)` (digits only). -/
def matchAfterLabelDigits (pat l : Line) : Option Line :=
  if pat.isPrefixOf l then
    let run := ((l.drop pat.length).dropWhile pyWs).takeWhile Char.isDigit
    if run.isEmpty then none else some run
  else none

/-- Leftmost match of `re.search(r'LABEL\s*(\d+)', line)`. -/
def searchLabelDigits (pat : Line) : Line → Option Line
  | [] => matchAfterLabelDigits pat []
  | c :: rest =>
    match matchAfterLabelDigits pat (c :: rest) with
    | some run => some run
    | none => searchLabelDigits pat rest

/-- One position of `re.search(r'([\d\.,]+)\s*bytes/sec', line)`. -/
def matchSpeedAt (l : Line) : Option Line :=
  let run := l.takeWhile numRun
  if run.isEmpty then none
  else
    if ("bytes/sec".data).isPrefixOf ((l.drop run.length).dropWhile pyWs) then
      some run
    else none

/-- Leftmost match of `re.search(r'([\d\.,]+)\s*bytes/sec', line)`. -/
def searchSpeed : Line → Option Line
  | [] => none
  | c :: rest =>
    match matchSpeedAt (c :: rest) with
    | some run => some run
    | none => searchSpeed rest

/-! ## The itemized-change regex

`item_regex = ^(?P<flags>[.cd+*<>])(?P<perm_flags>[a-zA-Z0-9.\-+\/\\]{8})\s+(?P<path>.+)$`
The `flags` group is a SINGLE character; `perm_flags` is exactly 8 characters;
then at least one whitespace character; `path` is the (nonempty) rest.  When
everything after `perm_flags` is whitespace, regex backtracking hands the last
whitespace character to `path`. -/

/-- The one-character class `[.cd+*<>]` of the `flags` group. -/
def flagChar (c : Char) : Bool :=
  c = '.' || c = 'c' || c = 'd' || c = '+' || c = '*' || c = '<' || c = '>'

/-- The class `[a-zA-Z0-9.\-+\/\\]` of the `perm_flags` group. -/
def permChar (c : Char) : Bool :=
  c.isAlpha || c.isDigit || c = '.' || c = '-' || c = '+' || c = '/' || c = '\\'

/-- Match `item_regex` against a line, returning the `flags` character and
the raw `path` group. -/
def itemMatch : Line → Option (Char × Line)
  | [] => none
  | f :: rest =>
    if flagChar f then
      let p8 := rest.take 8
      if p8.length = 8 && p8.all permChar then
        let tail := rest.drop 8
        let ws := tail.takeWhile pyWs
        let after := tail.drop ws.length
        if ws.isEmpty then none
        else if after.isEmpty then
          -- `\s+` backtracks: the final whitespace char becomes the path
          if 2 ≤ ws.length then some (f, tail.drop (tail.length - 1)) else none
        else some (f, after)
      else none
    else none

/-- Python `os.path.join("/data", path)` followed by `.rstrip('/')`
(`DATA_DIR = "/data"`; an absolute `path` replaces the prefix). -/
def joinDataRstrip (path : Line) : Line :=
  let joined :=
    match path with
    | [] => "/data/".data
    | c :: _ => if c = '/' then path else "/data/".data ++ path
  (joined.reverse.dropWhile (fun c => c = '/')).reverse

/-! ## The classifier state and per-line step -/

/-- The numeric fields of the `stats` dictionary built by
`SyncManager._parse_rsync_output`.  `speed_bps` is a Python float, but only
digit strings ever reach the conversion, so its value is a natural number. -/
structure Stats where
  sent_bytes : Nat := 0
  received_bytes : Nat := 0
  total_size : Nat := 0
  speed_bps : Nat := 0
  new_files : Nat := 0
  modified_files : Nat := 0
  deleted_files : Nat := 0
deriving DecidableEq

/-- In-progress parse state: numeric stats plus the two folder `set()`s
(modelled as duplicate-free lists; sorted on finalization, as the source
sorts only at the end). -/
structure PState where
  stats : Stats := {}
  newFolders : List Line := []
  modFolders : List Line := []
deriving DecidableEq

/-- Model of `set.add`: insertion order is irrelevant because the result is sorted. -/
def insertSet (l : List Line) (x : Line) : List Line :=
  if l.contains x then l else l ++ [x]

def sentLabel : Line := "Total bytes sent:".data
def recvLabel : Line := "Total bytes received:".data
def totalSizeLit : Line := "total size is".data
def speedupLit : Line := "speedup is".data
def createdLabel : Line := "Number of created files:".data
def deletedLabel : Line := "Number of deleted files:".data

/-- The itemized-change half of the per-line body: `if match: ...`.
`flags` is the single captured class character, so the source's membership
tests `'d' in flags`, `'t' in flags`, `'s' in flags`, `'+' in flags` and the
calls `flags.startswith('c')`, `flags.startswith('<')`, `flags.startswith('*')`
are each equality with that one character. -/
def itemStep (st : PState) (l : Line) : PState :=
  match itemMatch l with
  | none => st
  | some (f, rawPath) =>
    let full := joinDataRstrip (pyStrip rawPath)
    if f = 'd' then
      if f = 'c' then
        { st with newFolders := insertSet st.newFolders full }
      else if f = 't' || f = 's' || (f = '+' && !(f = 'c')) then
        { st with modFolders := insertSet st.modFolders full }
      else st
    else
      if f = '<' || f = 'c' then
        { st with stats := { st.stats with new_files := st.stats.new_files + 1 } }
      else if f = 't' || f = 's' then
        { st with stats := { st.stats with modified_files := st.stats.modified_files + 1 } }
      else if f = '*' then
        { st with stats := { st.stats with deleted_files := st.stats.deleted_files + 1 } }
      else st

/-- The statistics-summary half of the per-line body (the `if/elif` chain on
the labels); it only ever assigns numeric `stats` keys.  A matched
`[\d\.,]+` capture that strips to the empty string makes Python's
`int`/`float` raise, modelled as `none`. -/
def statsUpd (st : Stats) (l : Line) : Option Stats :=
  if containsSub sentLabel l then
    match searchLabelNum sentLabel l with
    | some run =>
      match pyIntOfRun run with
      | some n => some { st with sent_bytes := n }
      | none => none
    | none => some st
  else if containsSub recvLabel l then
    match searchLabelNum recvLabel l with
    | some run =>
      match pyIntOfRun run with
      | some n => some { st with received_bytes := n }
      | none => none
    | none => some st
  else if containsSub totalSizeLit l && containsSub speedupLit l then
    let afterTotal : Option Stats :=
      match searchLabelNum totalSizeLit l with
      | some run =>
        match pyIntOfRun run with
        | some n => some { st with total_size := n }
        | none => none
      | none => some st
    match afterTotal with
    | none => none
    | some st2 =>
      match searchSpeed l with
      | some run =>
        match pyIntOfRun run with
        | some n => some { st2 with speed_bps := n }
        | none => none
      | none => some st2
  else if containsSub createdLabel l then
    match searchLabelDigits createdLabel l with
    | some ds => some { st with new_files := digitsVal ds }
    | none => some st
  else if containsSub deletedLabel l then
    match searchLabelDigits deletedLabel l with
    | some ds => some { st with deleted_files := digitsVal ds }
    | none => some st
  else some st

/-- One loop iteration of `_parse_rsync_output`: the itemized `if` runs
first, then the statistics `if/elif` chain on the same line. -/
def lineStep (st : PState) (l : Line) : Option PState :=
  let st1 := itemStep st l
  (statsUpd st1.stats l).map fun s => { st1 with stats := s }

/-- Process a list of lines in order; a raised exception aborts the fold. -/
def parseFold (st : PState) : List Line → Option PState
  | [] => some st
  | l :: ls =>
    match lineStep st l with
    | some st2 => parseFold st2 ls
    | none => none

/-- The dictionary returned by `_parse_rsync_output`: the numeric fields,
the two sorted folder-name lists, and their lengths. -/
structure RsyncStats where
  sent_bytes : Nat
  received_bytes : Nat
  total_size : Nat
  speed_bps : Nat
  new_files : Nat
  modified_files : Nat
  deleted_files : Nat
  new_folders : Nat
  modified_folders : Nat
  new_folder_names : List Line
  modified_folder_names : List Line
deriving DecidableEq

/-- Lexicographic (code-point) strict order on strings, as used by Python
`sorted`. -/
def lexLt : Line → Line → Bool
  | [], [] => false
  | [], _ :: _ => true
  | _ :: _, [] => false
  | a :: as, b :: bs => a < b || (a = b && lexLt as bs)

def insertSorted (x : Line) : List Line → List Line
  | [] => [x]
  | y :: ys => if lexLt y x then y :: insertSorted x ys else x :: y :: ys

/-- Python `sorted(list(s))` on a set of strings. -/
def sortLines (l : List Line) : List Line := l.foldr insertSorted []

/-- Sort the folder sets and store the counts (the final lines of
`_parse_rsync_output`). -/
def finalize (p : PState) : RsyncStats :=
  let nfn := sortLines p.newFolders
  let mfn := sortLines p.modFolders
  { sent_bytes := p.stats.sent_bytes
    received_bytes := p.stats.received_bytes
    total_size := p.stats.total_size
    speed_bps := p.stats.speed_bps
    new_files := p.stats.new_files
    modified_files := p.stats.modified_files
    deleted_files := p.stats.deleted_files
    new_folders := nfn.length
    modified_folders := mfn.length
    new_folder_names := nfn
    modified_folder_names := mfn }

/-- Line decomposition performed by `_parse_rsync_output`:
`rsync_output.strip().split('\n')`. -/
def toLines (s : String) : List Line := splitOnNl (pyStrip s.data)

/-- Model of `SyncManager._parse_rsync_output` (`src/managers/sync_manager.py`,
lines 217-306).  `none` models a Python exception escaping the method. -/
def parse_rsync_output (s : String) : Option RsyncStats :=
  (parseFold {} (toLines s)).map finalize

/-! ## The standalone helper parser (`src/utils/sync_utils.py`) -/

/-- Line-break characters recognized by Python `str.splitlines()`
other than `'\r'` (which is handled with the `"\r\n"` pair). -/
def slBreak (c : Char) : Bool :=
  c = '\n' || c = '\x0b' || c = '\x0c' || c = '\x1c' || c = '\x1d' ||
  c = '\x1e' || c = '\x85' || c = ' ' || c = ' '

/-- Replace each `"\r\n"` pair by a single `'\n'` (a `"\r\n"` sequence is
one line boundary for `splitlines`). -/
def collapseCrLf : Line → Line
  | [] => []
  | ['\r'] => ['\r']
  | '\r' :: '\n' :: rest => '\n' :: collapseCrLf rest
  | c :: rest => c :: collapseCrLf rest

def slBreakAll (c : Char) : Bool := c = '\r' || slBreak c

def splitBreaks : Line → List Line
  | [] => [[]]
  | c :: rest =>
    let r := splitBreaks rest
    if slBreakAll c then [] :: r
    else
      match r with
      | [] => [[c]]
      | h :: t => (c :: h) :: t

/-- Python `str.splitlines()`: no trailing empty line, `"" → []`. -/
def splitlinesPy (l : Line) : List Line :=
  if l.isEmpty then []
  else
    let ps := splitBreaks (collapseCrLf l)
    match ps.getLast? with
    | some [] => ps.dropLast
    | _ => ps

def findallGo (cur : Line) : Line → List Line
  | [] => if cur.isEmpty then [] else [cur.reverse]
  | c :: rest =>
    if c.isDigit then findallGo (c :: cur) rest
    else (if cur.isEmpty then [] else [cur.reverse]) ++ findallGo [] rest

/-- Model of `re.findall(r"\d+", line)`: every maximal digit run, left to right. -/
def findallDigits (l : Line) : List Line := findallGo [] l

/-- The dictionary built by `sync_utils.parse_rsync_output`. -/
structure SimpleStats where
  sent_bytes : Nat := 0
  received_bytes : Nat := 0
  total_size : Nat := 0
deriving DecidableEq

/-- One line of the helper's loop.  `re.findall(...)[0]` raises `IndexError`
when the line holds no digit at all, modelled as `none`.  Note the helper's
third branch tests only `"total size is"` (no `"speedup is"` conjunct). -/
def suStep (st : SimpleStats) (l : Line) : Option SimpleStats :=
  if containsSub sentLabel l then
    match (findallDigits l).head? with
    | some r => some { st with sent_bytes := digitsVal r }
    | none => none
  else if containsSub recvLabel l then
    match (findallDigits l).head? with
    | some r => some { st with received_bytes := digitsVal r }
    | none => none
  else if containsSub totalSizeLit l then
    match (findallDigits l).head? with
    | some r => some { st with total_size := digitsVal r }
    | none => none
  else some st

def suFold (st : SimpleStats) : List Line → Option SimpleStats
  | [] => some st
  | l :: ls =>
    match suStep st l with
    | some st2 => suFold st2 ls
    | none => none

/-- Model of `sync_utils.parse_rsync_output` (`src/utils/sync_utils.py`, lines 30-46):
iterates `output.splitlines()` and keeps only the FIRST digit run of each
statistics line. -/
def sync_utils_parse_rsync_output (s : String) : Option SimpleStats :=
  suFold {} (splitlinesPy s.data)

/-! ## Disk-space gate, retry loop and the `run_rsync` facade -/

/-- Every `send_telegram` call the orchestration can make, one constructor
per distinct message built in the source (`send_telegram` itself catches
all of its own errors and never raises back into the caller). -/
inductive Notification
  | invalidDirection      -- "Internal Error: ... unsupported direction"
  | srcUndefined          -- "Internal Error: Rsync Source (RSYNC_FROM) not defined"
  | lowSpaceAlert         -- "Low Disk Space Alert" (sent inside _check_disk_space)
  | diskCheckError        -- "Error checking disk space" (sent inside _check_disk_space)
  | abortedDiskIssue      -- "Synchronization ... aborted: Disk space check issue."
  | successReport         -- the success message of the returncode == 0 branch
  | failureReport         -- "Failed to synchronize ... after N attempts"
  | timeoutReport         -- "Rsync Timeout Exception during sync ..."
  | unexpectedErrorReport -- "Unexpected Exception during sync ..."
deriving DecidableEq

/-- Result of `shutil.disk_usage` on the destination: either the query
raises (path unmounted, ...) or yields a free-space figure.  The source
converts bytes to GB by float division; the exact value is modelled as a
rational number of gigabytes. -/
inductive DiskQuery
  | err
  | ok (free_gb : ℚ)

/-- Model of `SyncManager._check_disk_space` (`src/managers/sync_manager.py`,
lines 183-215): returns the boolean handed to the caller together with the
notifications it sends itself.  Both failure modes return `false`; they
differ only in the message sent. -/
def check_disk_space (q : DiskQuery) (threshold_gb : ℚ) : Bool × List Notification :=
  match q with
  | .err => (false, [.diskCheckError])
  | .ok free_gb =>
    if free_gb < threshold_gb then (false, [.lowSpaceAlert]) else (true, [])

/-- What one `subprocess.run(cmd, ..., timeout=300)` invocation produced. -/
inductive RsyncResult
  | completed (returncode : Nat) (stdout : String)
  | timedOut
deriving Inhabited

/-- How the try-block of one loop iteration ends: the returncode-0 branch
succeeds only when `_parse_rsync_output` does not raise; a raised parse
exception lands in the generic `except Exception` handler. -/
inductive AttemptKind
  | success
  | failed (terminalMsg : Notification)

def attemptKind : RsyncResult → AttemptKind
  | .completed 0 out =>
    if (parse_rsync_output out).isSome then .success
    else .failed .unexpectedErrorReport
  | .completed _ _ => .failed .failureReport
  | .timedOut => .failed .timeoutReport

/-- True when the iteration does not return (non-zero exit, timeout, or a
raised parse exception on a zero exit). -/
def attemptFails (r : RsyncResult) : Bool :=
  match attemptKind r with
  | .success => false
  | .failed _ => true

/-- Observable trace of the retry loop. -/
structure LoopTrace where
  attemptsMade : Nat
  sleeps : List Nat
  notifs : List Notification
deriving DecidableEq

/-- The loop `for attempt in range(1, self.max_retries + 1)` of
`SyncManager.run_rsync` (lines 476-627): `rem` counts the iterations still
available (so `attempt < self.max_retries` is `rem ≠ 0`), `k` is the
1-based attempt number, and the sleep after a failed non-final attempt `k`
is `retry_delay_seconds * 2 ^ (k - 1)`. -/
def runLoop (base : Nat) (att : Nat → RsyncResult) : Nat → Nat → LoopTrace
  | 0, _ => ⟨0, [], []⟩
  | rem + 1, k =>
    match attemptKind (att k) with
    | .success => ⟨1, [], [.successReport]⟩
    | .failed msg =>
      if rem = 0 then ⟨1, [], [msg]⟩
      else
        let t := runLoop base att rem (k + 1)
        ⟨t.attemptsMade + 1, base * 2 ^ (k - 1) :: t.sleeps, t.notifs⟩

/-- Inputs of one `run_rsync` invocation: the argument, the configuration
read in `__init__`, and the behaviour of the external world (disk query,
each rsync subprocess invocation). -/
structure RunEnv where
  direction : String
  srcDefined : Bool         -- self.rsync_from is not None
  disk : DiskQuery
  thresholdGb : ℚ           -- self.disk_space_threshold_gb
  maxRetries : Nat          -- self.max_retries
  retryDelaySeconds : Nat   -- self.retry_delay_seconds
  attempts : Nat → RsyncResult

/-- Observable trace of a whole `run_rsync` call. -/
structure RunResult where
  invoked : Bool            -- ran the rsync subprocess at least once
  notifs : List Notification
  sleeps : List Nat
  attemptsMade : Nat
  loggedDirectionError : Bool -- the _log_message call of the invalid-direction branch
deriving DecidableEq

/-- Model of `SyncManager.run_rsync` (lines 420-627).  `dest` is the constant
`DATA_DIR`, so the `dest is None` guard never fires and is omitted. -/
def run_rsync (env : RunEnv) : RunResult :=
  if env.direction = "from" then
    if !env.srcDefined then
      ⟨false, [.srcUndefined], [], 0, false⟩
    else
      match check_disk_space env.disk env.thresholdGb with
      | (true, _) =>
        let t := runLoop env.retryDelaySeconds env.attempts env.maxRetries 1
        ⟨env.maxRetries != 0, t.notifs, t.sleeps, t.attemptsMade, false⟩
      | (false, gateNotifs) =>
        ⟨false, gateNotifs ++ [.abortedDiskIssue], [], 0, false⟩
  else
    ⟨false, [.invalidDirection], [], 0, true⟩

/-! ## `set_rsync_from_path` -/

/-- Observable outcome of `SyncManager.set_rsync_from_path`:
`returned = none` models an exception escaping the method. -/
structure SetPathOutcome where
  returned : Option Bool
  persistedPath : Option String -- content written to rsync_from.conf
deriving DecidableEq

/-- Model of `SyncManager.set_rsync_from_path` (lines 124-142) with
`_save_rsync_from_path` (lines 113-122) inlined.  `writeOk` abstracts
whether opening/writing the config file succeeds (`_save_rsync_from_path`
catches its own exceptions, notifies, and leaves the instance state
unchanged, so the method still returns `True`).  On the invalid-shape
branch the source evaluates `self.telegram_utils.send_telegram(...)`, but
no code in the repository ever assigns a `telegram_utils` attribute on
`SyncManager`, so the attribute lookup raises `AttributeError` before the
`return False` statement is reached: modelled as `returned = none`. -/
def set_rsync_from_path (new_path : String) (writeOk : Bool) : SetPathOutcome :=
  if new_path.data.isEmpty || !new_path.data.contains '@' || !new_path.data.contains ':' then
    ⟨none, none⟩
  else if writeOk then
    ⟨some true, some new_path⟩
  else
    ⟨some true, none⟩

/-! ## General lemmas about the classifier -/

lemma parseFold_append (l1 l2 : List Line) (st : PState) :
    parseFold st (l1 ++ l2) = (parseFold st l1).bind fun s2 => parseFold s2 l2 := by
  induction l1 generalizing st with
  | nil => rfl
  | cons l ls ih =>
    show parseFold st (l :: (ls ++ l2)) = _
    rw [parseFold, parseFold]
    cases lineStep st l with
    | none => rfl
    | some st2 => exact ih st2

lemma itemStep_folders (st : PState) (l : Line) :
    (itemStep st l).newFolders = st.newFolders ∧
    (itemStep st l).modFolders = st.modFolders := by
  unfold itemStep
  cases itemMatch l with
  | none => exact ⟨rfl, rfl⟩
  | some fp =>
    obtain ⟨f, p⟩ := fp
    by_cases hd : f = 'd'
    · subst hd
      simp
    · simp only [hd, if_false]
      split_ifs <;> exact ⟨rfl, rfl⟩

lemma lineStep_folders (st st2 : PState) (l : Line) (h : lineStep st l = some st2) :
    st2.newFolders = st.newFolders ∧ st2.modFolders = st.modFolders := by
  unfold lineStep at h
  obtain ⟨s, _, hs⟩ := Option.map_eq_some'.mp h
  obtain ⟨h1, h2⟩ := itemStep_folders st l
  rw [← hs]
  exact ⟨h1, h2⟩

lemma parseFold_folders (ls : List Line) (st st2 : PState)
    (h : parseFold st ls = some st2) :
    st2.newFolders = st.newFolders ∧ st2.modFolders = st.modFolders := by
  induction ls generalizing st with
  | nil =>
    rw [parseFold] at h
    cases h
    exact ⟨rfl, rfl⟩
  | cons l rest ih =>
    rw [parseFold] at h
    cases hl : lineStep st l with
    | none => rw [hl] at h; cases h
    | some mid =>
      rw [hl] at h
      obtain ⟨a1, a2⟩ := ih mid h
      obtain ⟨b1, b2⟩ := lineStep_folders st mid l hl
      exact ⟨a1.trans b1, a2.trans b2⟩

/-! ## Claim C9 -/

/-- C9: feeding the classifier the statistics line
`"Total bytes sent: 1,234,567"` yields `sent_bytes = 1234567`: the regex
captures `1,234,567`, the separators are stripped and the digits
re-assemble into the original integer; every other field keeps its
default. -/
theorem sent_bytes_thousands_separators :
    parse_rsync_output "Total bytes sent: 1,234,567"
      = some ⟨1234567, 0, 0, 0, 0, 0, 0, 0, 0, [], []⟩ := by rfl

/-! ## Claim C4 -/

/-- C4 (code bug): classification does NOT terminate normally on every
input.  On `"Total bytes sent: ,"` the regex capture `","` strips to the
empty string and Python's `int('')` raises a `ValueError` that escapes
`_parse_rsync_output` (modelled by `none`), while on a label with no
digits at all (`"Total bytes sent: abc"`) the search fails and the field
is left at its default of zero as the spec describes. -/
theorem classifier_raises_on_separator_only_field :
    parse_rsync_output "Total bytes sent: ," = none
    ∧ parse_rsync_output "Total bytes sent: abc"
        = some ⟨0, 0, 0, 0, 0, 0, 0, 0, 0, [], []⟩ := by
  exact ⟨rfl, rfl⟩

/-! ## Claim C6 -/

/-- C6 (code bug): the folder branches of the classifier are unreachable.
`rsync`'s real created-directory line `"cd+++++++++ DTA/"` (11-character
itemized code) does not even match `item_regex` (which demands exactly
1 + 8 characters before the whitespace), and for EVERY input the folder
name lists come back empty with zero folder counts: the single captured
class character cannot simultaneously be `'d'` (the directory test) and
`'c'`/`'t'`/`'s'`/`'+'` (the created/modified markers). -/
theorem folder_paths_never_recorded :
    parse_rsync_output "cd+++++++++ DTA/" = some ⟨0, 0, 0, 0, 0, 0, 0, 0, 0, [], []⟩
    ∧ ∀ (s : String) (st : RsyncStats), parse_rsync_output s = some st →
        st.new_folder_names = [] ∧ st.modified_folder_names = [] ∧
        st.new_folders = 0 ∧ st.modified_folders = 0 := by
  refine ⟨rfl, fun s st h => ?_⟩
  unfold parse_rsync_output at h
  obtain ⟨p, hp, hfin⟩ := Option.map_eq_some'.mp h
  obtain ⟨h1, h2⟩ := parseFold_folders (toLines s) {} p hp
  rw [← hfin]
  unfold finalize
  rw [h1, h2]
  exact ⟨rfl, rfl, rfl, rfl⟩

/-- Witness for C6's universally quantified part, applied at a line that
`rsync` would emit for a received directory (`'d'` routes it into the
directory branch, where no marker test can fire). -/
theorem folder_paths_never_recorded_witness :
    (parse_rsync_output "d++++++++ sub/").map RsyncStats.new_folder_names = some [] := by
  have h : parse_rsync_output "d++++++++ sub/" = some ⟨0, 0, 0, 0, 0, 0, 0, 0, 0, [], []⟩ := by
    rfl
  rw [h]
  exact congrArg some (folder_paths_never_recorded.2 _ _ h).1

/-! ## Claim C7 -/

/-- C7 (code bug): on an empty or malformed `new_path` the method does not
return `False` — evaluating `self.telegram_utils.send_telegram(...)`
raises `AttributeError` (the attribute is never assigned), so no value is
returned and nothing is persisted; a well-formed `user@host:path` value is
persisted with `True` returned. -/
theorem set_rsync_from_path_eval :
    set_rsync_from_path "" true = ⟨none, none⟩
    ∧ set_rsync_from_path "pi@raspberry" true = ⟨none, none⟩
    ∧ set_rsync_from_path "user@host:/data" true
        = ⟨some true, some "user@host:/data"⟩ := by
  exact ⟨rfl, rfl, rfl⟩

/-! ## Claim C8 -/

/-- C8 counterexample: the value `_check_disk_space` hands to its caller is
the same `False` whether the filesystem query raised (path unmounted) or
the measured free space (5 GB) is below the 10 GB floor — the caller
cannot distinguish the two failure modes. -/
theorem disk_gate_conflates_failures_cex :
    (check_disk_space .err 10).1 = (check_disk_space (.ok 5) 10).1 := by rfl

/-- C8 amended: the two failure modes differ only in the notification the
gate itself sends (a disk-check error message versus a low-space alert);
the boolean reported to the caller is `False` in both cases, so `run_rsync`
aborts identically for both. -/
theorem disk_gate_distinct_messages (thr f : ℚ) (h : f < thr) :
    (check_disk_space .err thr).1 = (check_disk_space (.ok f) thr).1
    ∧ (check_disk_space .err thr).2 ≠ (check_disk_space (.ok f) thr).2 := by
  have h2 : check_disk_space (.ok f) thr = (false, [.lowSpaceAlert]) := by
    unfold check_disk_space
    simp [h]
  have h1 : check_disk_space .err thr = (false, [.diskCheckError]) := rfl
  rw [h1, h2]
  exact ⟨rfl, by decide⟩

/-- Witness for C8's amended theorem at free = 5 GB, floor = 10 GB. -/
theorem disk_gate_distinct_messages_witness :
    (5 : ℚ) < 10
    ∧ ((check_disk_space .err 10).1 = (check_disk_space (.ok 5) 10).1
        ∧ (check_disk_space .err 10).2 ≠ (check_disk_space (.ok 5) 10).2) := by
  exact ⟨by norm_num, disk_gate_distinct_messages 10 5 (by norm_num)⟩

/-! ## Claim C10 -/

/-- The input of the spec's round-trip test, shared by both C10 theorems. -/
def c10input : String := "Total bytes sent: 1,234,567"

/-- C10 counterexample: the two rsync-output parsers are NOT equivalent on
statistics lines — on `"Total bytes sent: 1,234,567"` the standalone
helper and the manager's classifier return different `sent_bytes`. -/
theorem parsers_disagree_cex :
    ¬ ((sync_utils_parse_rsync_output c10input).map SimpleStats.sent_bytes
        = (parse_rsync_output c10input).map RsyncStats.sent_bytes) := by
  decide

/-- C10 amended: `sync_utils.parse_rsync_output` keeps only the FIRST digit
run of the line (`re.findall(r"\d+", line)[0]`), returning `sent_bytes = 1`
on `"Total bytes sent: 1,234,567"`, while `SyncManager._parse_rsync_output`
strips the thousands separators from the full capture and returns
`1234567`. -/
theorem parsers_disagree_values :
    (sync_utils_parse_rsync_output c10input).map SimpleStats.sent_bytes = some 1
    ∧ (parse_rsync_output c10input).map RsyncStats.sent_bytes = some 1234567 := by
  exact ⟨rfl, rfl⟩

/-! ## Claim C2 -/

lemma statsUpd_created (st : Stats) (l ds : Line)
    (h1 : containsSub sentLabel l = false)
    (h2 : containsSub recvLabel l = false)
    (h3 : (containsSub totalSizeLit l && containsSub speedupLit l) = false)
    (h4 : containsSub createdLabel l = true)
    (h5 : searchLabelDigits createdLabel l = some ds) :
    statsUpd st l = some { st with new_files := digitsVal ds } := by
  simp [statsUpd, h1, h2, h3, h4, h5]

lemma statsUpd_deleted (st : Stats) (l ds : Line)
    (h1 : containsSub sentLabel l = false)
    (h2 : containsSub recvLabel l = false)
    (h3 : (containsSub totalSizeLit l && containsSub speedupLit l) = false)
    (h4 : containsSub createdLabel l = false)
    (h5 : containsSub deletedLabel l = true)
    (h6 : searchLabelDigits deletedLabel l = some ds) :
    statsUpd st l = some { st with deleted_files := digitsVal ds } := by
  simp [statsUpd, h1, h2, h3, h4, h5, h6]

lemma parseFold_single (st : PState) (l : Line) : parseFold st [l] = lineStep st l := by
  cases h : lineStep st l with
  | none => simp [parseFold, h]
  | some st2 => simp [parseFold, h]

lemma parseFold_last_line (s : String) (pre : List Line) (l : Line) (p : PState)
    (hsplit : toLines s = pre ++ [l])
    (hp : parseFold {} (toLines s) = some p) :
    ∃ mid, lineStep mid l = some p := by
  rw [hsplit, parseFold_append] at hp
  cases hmid : parseFold {} pre with
  | none => rw [hmid] at hp; cases hp
  | some mid =>
    rw [hmid] at hp
    refine ⟨mid, ?_⟩
    rw [← parseFold_single]
    exact hp

/-- C2 amended: when the `"Number of created files: N"` (respectively
`"Number of deleted files: N"`) statistics line is the LAST line of the
classifier's input — as in genuine rsync output, where the statistics block
follows all itemized lines — the returned `new_files` (resp.
`deleted_files`) equals `N`, overriding whatever the itemized lines before
it produced.  (The override is an in-order assignment, so an itemized line
appearing after the statistics line is added on top — see the
counterexample.) -/
theorem stats_block_overrides_when_last :
    (∀ (s : String) (pre : List Line) (l ds : Line) (st : RsyncStats),
        toLines s = pre ++ [l] →
        containsSub sentLabel l = false →
        containsSub recvLabel l = false →
        (containsSub totalSizeLit l && containsSub speedupLit l) = false →
        containsSub createdLabel l = true →
        searchLabelDigits createdLabel l = some ds →
        parse_rsync_output s = some st →
        st.new_files = digitsVal ds)
    ∧ (∀ (s : String) (pre : List Line) (l ds : Line) (st : RsyncStats),
        toLines s = pre ++ [l] →
        containsSub sentLabel l = false →
        containsSub recvLabel l = false →
        (containsSub totalSizeLit l && containsSub speedupLit l) = false →
        containsSub createdLabel l = false →
        containsSub deletedLabel l = true →
        searchLabelDigits deletedLabel l = some ds →
        parse_rsync_output s = some st →
        st.deleted_files = digitsVal ds) := by
  constructor
  · intro s pre l ds st hsplit h1 h2 h3 h4 h5 hp
    unfold parse_rsync_output at hp
    obtain ⟨p, hp2, hfin⟩ := Option.map_eq_some'.mp hp
    obtain ⟨mid, hl⟩ := parseFold_last_line s pre l p hsplit hp2
    simp only [lineStep] at hl
    rw [statsUpd_created (itemStep mid l).stats l ds h1 h2 h3 h4 h5] at hl
    rw [Option.map_some'] at hl
    have hpe := Option.some.inj hl
    rw [← hfin, ← hpe]
    rfl
  · intro s pre l ds st hsplit h1 h2 h3 h4 h5 h6 hp
    unfold parse_rsync_output at hp
    obtain ⟨p, hp2, hfin⟩ := Option.map_eq_some'.mp hp
    obtain ⟨mid, hl⟩ := parseFold_last_line s pre l p hsplit hp2
    simp only [lineStep] at hl
    rw [statsUpd_deleted (itemStep mid l).stats l ds h1 h2 h3 h4 h5 h6] at hl
    rw [Option.map_some'] at hl
    have hpe := Option.some.inj hl
    rw [← hfin, ← hpe]
    rfl

/-- The text of the C2 witness: one itemized created-file line, then the
authoritative statistics line. -/
def c2text : String := "<f++++++t a.txt\nNumber of created files: 7"

/-- Witness for C2: on `c2text` the itemized count (1) is overridden and
`new_files` comes back as the statistics value 7. -/
theorem stats_block_overrides_when_last_witness :
    (parse_rsync_output c2text).map RsyncStats.new_files = some (digitsVal ['7']) := by
  have hp : parse_rsync_output c2text = some ⟨0, 0, 0, 0, 7, 0, 0, 0, 0, [], []⟩ := by rfl
  rw [hp]
  exact congrArg some
    (stats_block_overrides_when_last.1 c2text ["<f++++++t a.txt".data]
      "Number of created files: 7".data ['7'] ⟨0, 0, 0, 0, 7, 0, 0, 0, 0, [], []⟩
      rfl rfl rfl rfl rfl rfl hp)

/-- The C2 counterexample text: the statistics line first, an itemized
created-file line after it. -/
def c2cexText : String := "Number of created files: 7\n<f++++++t a.txt"

/-- C2 counterexample: the input contains the statistics line
`"Number of created files: 7"`, yet the classifier returns
`new_files = 8`, not 7 — the itemized line processed after the statistics
line increments the already-assigned count. -/
theorem stats_override_cex :
    (parse_rsync_output c2cexText).map RsyncStats.new_files = some 8 ∧ (8 : Nat) ≠ 7 := by
  exact ⟨rfl, by decide⟩

/-! ## The retry loop: general lemmas -/

lemma runLoop_success_step (base : Nat) (att : Nat → RsyncResult) (rem k : Nat)
    (ha : attemptKind (att k) = .success) :
    runLoop base att (rem + 1) k = ⟨1, [], [.successReport]⟩ := by
  unfold runLoop
  rw [ha]

lemma runLoop_failed_last (base : Nat) (att : Nat → RsyncResult) (k : Nat)
    (msg : Notification) (ha : attemptKind (att k) = .failed msg) :
    runLoop base att 1 k = ⟨1, [], [msg]⟩ := by
  show (match attemptKind (att k) with
        | .success => (⟨1, [], [.successReport]⟩ : LoopTrace)
        | .failed m =>
          if (0 : Nat) = 0 then ⟨1, [], [m]⟩
          else
            let t := runLoop base att 0 (k + 1)
            ⟨t.attemptsMade + 1, base * 2 ^ (k - 1) :: t.sleeps, t.notifs⟩) = _
  rw [ha]
  rfl

lemma runLoop_failed_step (base : Nat) (att : Nat → RsyncResult) (r2 k : Nat)
    (msg : Notification) (ha : attemptKind (att k) = .failed msg) :
    runLoop base att (r2 + 2) k =
      ⟨(runLoop base att (r2 + 1) (k + 1)).attemptsMade + 1,
        base * 2 ^ (k - 1) :: (runLoop base att (r2 + 1) (k + 1)).sleeps,
        (runLoop base att (r2 + 1) (k + 1)).notifs⟩ := by
  show (match attemptKind (att k) with
        | .success => (⟨1, [], [.successReport]⟩ : LoopTrace)
        | .failed m =>
          if r2 + 1 = 0 then ⟨1, [], [m]⟩
          else
            let t := runLoop base att (r2 + 1) (k + 1)
            ⟨t.attemptsMade + 1, base * 2 ^ (k - 1) :: t.sleeps, t.notifs⟩) = _
  rw [ha]
  rfl

lemma runLoop_notifs_length (base : Nat) (att : Nat → RsyncResult) :
    ∀ rem k, 1 ≤ rem → ((runLoop base att rem k).notifs).length = 1 := by
  intro rem
  induction rem with
  | zero => intro k h; exact absurd h (by omega)
  | succ r ih =>
    intro k _
    cases ha : attemptKind (att k) with
    | success => rw [runLoop_success_step base att r k ha]; rfl
    | failed msg =>
      by_cases hr : r = 0
      · subst hr; rw [runLoop_failed_last base att k msg ha]; rfl
      · obtain ⟨r2, rfl⟩ : ∃ r2, r = r2 + 1 := ⟨r - 1, by omega⟩
        rw [runLoop_failed_step base att r2 k msg ha]
        exact ih (k + 1) (by omega)

lemma runLoop_all_failed (base : Nat) (att : Nat → RsyncResult)
    (hf : ∀ j2, attemptFails (att j2) = true) :
    ∀ rem j,
      (runLoop base att rem (j + 1)).attemptsMade = rem ∧
      (runLoop base att rem (j + 1)).sleeps
        = (List.range (rem - 1)).map fun i => base * 2 ^ (j + i) := by
  intro rem
  induction rem with
  | zero => intro j; exact ⟨rfl, rfl⟩
  | succ r ih =>
    intro j
    have hfk := hf (j + 1)
    unfold attemptFails at hfk
    cases ha : attemptKind (att (j + 1)) with
    | success => rw [ha] at hfk; cases hfk
    | failed msg =>
      by_cases hr : r = 0
      · subst hr; rw [runLoop_failed_last base att (j + 1) msg ha]; exact ⟨rfl, rfl⟩
      · obtain ⟨r2, rfl⟩ : ∃ r2, r = r2 + 1 := ⟨r - 1, by omega⟩
        rw [runLoop_failed_step base att r2 (j + 1) msg ha]
        obtain ⟨ih1, ih2⟩ := ih (j + 1)
        refine ⟨by rw [ih1], ?_⟩
        show base * 2 ^ (j + 1 - 1) :: (runLoop base att (r2 + 1) (j + 1 + 1)).sleeps = _
        rw [ih2]
        simp only [Nat.add_sub_cancel]
        rw [List.range_succ_eq_map, List.map_cons, List.map_map]
        refine congrArg₂ List.cons rfl ?_
        apply List.map_congr_left
        intro i _
        show base * 2 ^ (j + 1 + i) = base * 2 ^ (j + Nat.succ i)
        have he : j + 1 + i = j + Nat.succ i := by omega
        rw [he]

/-! ## Claim C5 -/

/-- C5 amended: with an invoker whose every attempt fails (non-zero exit,
timeout, or — the amendment — a zero exit whose stdout makes the
classifier raise), the loop performs exactly `maxRetries` attempts and
sleeps `retry_delay * 2 ^ (k - 1)` after each failed attempt `k` except
the last; an attempt with exit code 0 whose output classifies successfully
returns immediately with no further attempt and no sleep. -/
theorem retry_attempts_and_backoff :
    (∀ (base maxR : Nat) (att : Nat → RsyncResult),
        (∀ j2, attemptFails (att j2) = true) →
        (runLoop base att maxR 1).attemptsMade = maxR ∧
        (runLoop base att maxR 1).sleeps
          = (List.range (maxR - 1)).map fun i => base * 2 ^ i)
    ∧ (∀ (base rem k : Nat) (att : Nat → RsyncResult) (out : String),
        att k = .completed 0 out →
        (parse_rsync_output out).isSome = true →
        runLoop base att (rem + 1) k = ⟨1, [], [.successReport]⟩) := by
  constructor
  · intro base maxR att hf
    have h := runLoop_all_failed base att hf maxR 0
    refine ⟨h.1, ?_⟩
    rw [h.2]
    simp
  · intro base rem k att out ha hsome
    refine runLoop_success_step base att rem k ?_
    unfold attemptKind
    rw [ha]
    simp [hsome]

/-- Witness for C5: `maxRetries = 3`, `baseDelay = 5` and an
always-timing-out invoker give exactly 3 attempts with sleeps 5 s and 10 s
(none after the final attempt); a first attempt with exit code 0 and
classifiable output stops after 1 attempt with no sleep. -/
theorem retry_attempts_and_backoff_witness :
    ((runLoop 5 (fun _ => .timedOut) 3 1).attemptsMade = 3
      ∧ (runLoop 5 (fun _ => .timedOut) 3 1).sleeps = [5, 10])
    ∧ runLoop 5 (fun _ => .completed 0 "") 1 1 = ⟨1, [], [.successReport]⟩ := by
  have h := retry_attempts_and_backoff.1 5 3 (fun _ => .timedOut) (fun _ => rfl)
  exact ⟨⟨h.1, by rw [h.2]; rfl⟩,
    retry_attempts_and_backoff.2 5 0 1 (fun _ => .completed 0 "") "" rfl rfl⟩

/-- The attempt behaviour of the C5 counterexample: the first attempt exits
with code 0 but its stdout makes `_parse_rsync_output` raise. -/
def c5att : Nat → RsyncResult :=
  fun k => if k = 1 then .completed 0 "Total bytes sent: ," else .timedOut

/-- C5 counterexample: attempt 1 has exit code 0, yet the loop does NOT
return immediately — the `ValueError` raised by the classifier inside the
`try` block lands in the generic `except` handler, the loop sleeps 5 s and
runs a second attempt. -/
theorem retry_zero_exit_cex :
    c5att 1 = .completed 0 "Total bytes sent: ,"
    ∧ (runLoop 5 c5att 2 1).attemptsMade = 2
    ∧ (runLoop 5 c5att 2 1).sleeps = [5] := by
  exact ⟨rfl, rfl, rfl⟩

/-! ## Claim C3 -/

lemma check_disk_space_false_notifs (q : DiskQuery) (t : ℚ)
    (h : (check_disk_space q t).1 = false) :
    ((check_disk_space q t).2).length = 1 := by
  cases q with
  | err => rfl
  | ok f =>
    unfold check_disk_space at h ⊢
    by_cases hf : f < t
    · simp [hf]
    · simp [hf] at h

lemma run_rsync_gate_ok (env : RunEnv)
    (hd : env.direction = "from") (hs : env.srcDefined = true)
    (hg : (check_disk_space env.disk env.thresholdGb).1 = true) :
    run_rsync env =
      ⟨env.maxRetries != 0,
        (runLoop env.retryDelaySeconds env.attempts env.maxRetries 1).notifs,
        (runLoop env.retryDelaySeconds env.attempts env.maxRetries 1).sleeps,
        (runLoop env.retryDelaySeconds env.attempts env.maxRetries 1).attemptsMade,
        false⟩ := by
  cases hq : check_disk_space env.disk env.thresholdGb with
  | mk b ns =>
    rw [hq] at hg
    cases hg
    unfold run_rsync
    rw [hd, hs, hq]
    rfl

lemma run_rsync_gate_fail (env : RunEnv)
    (hd : env.direction = "from") (hs : env.srcDefined = true)
    (hg : (check_disk_space env.disk env.thresholdGb).1 = false) :
    run_rsync env =
      ⟨false, (check_disk_space env.disk env.thresholdGb).2 ++ [.abortedDiskIssue],
        [], 0, false⟩ := by
  cases hq : check_disk_space env.disk env.thresholdGb with
  | mk b ns =>
    rw [hq] at hg
    cases hg
    unfold run_rsync
    rw [hd, hs, hq]
    rfl

/-- C3 amended: on a `run_rsync` invocation with the supported direction
and a defined source, a run whose disk gate passes makes EXACTLY ONE
`send_telegram` call whatever the attempts do (success, exhausted
non-zero exits, exhausted timeouts, exhausted classifier errors —
intermediate failed attempts notify nothing); but a run aborted by the
disk gate makes exactly TWO calls: the gate's own low-space alert or
disk-error message, plus the orchestrator's aborted message. -/
theorem run_rsync_notification_counts (env : RunEnv)
    (hd : env.direction = "from") (hs : env.srcDefined = true) :
    ((check_disk_space env.disk env.thresholdGb).1 = true →
        1 ≤ env.maxRetries → ((run_rsync env).notifs).length = 1)
    ∧ ((check_disk_space env.disk env.thresholdGb).1 = false →
        ((run_rsync env).notifs).length = 2) := by
  constructor
  · intro hg hm
    rw [run_rsync_gate_ok env hd hs hg]
    exact runLoop_notifs_length env.retryDelaySeconds env.attempts env.maxRetries 1 hm
  · intro hg
    rw [run_rsync_gate_fail env hd hs hg]
    show ((check_disk_space env.disk env.thresholdGb).2 ++ [Notification.abortedDiskIssue]).length = 2
    rw [List.length_append, check_disk_space_false_notifs env.disk env.thresholdGb hg]
    rfl

/-- The environment of the C3 counterexample and of C3's aborted witness:
direction supported, source defined, but only 5 GB free against a 10 GB
floor. -/
def lowDiskEnv : RunEnv := ⟨"from", true, .ok 5, 10, 3, 5, fun _ => .timedOut⟩

/-- A healthy run environment: direction supported, source defined,
50 GB free against a 10 GB floor, an invoker that always times out. -/
def okDiskEnv : RunEnv := ⟨"from", true, .ok 50, 10, 3, 5, fun _ => .timedOut⟩

/-- Witness for C3's amended theorem: a healthy-disk run that exhausts
3 timeouts notifies once; a low-disk run (5 GB free, 10 GB floor)
notifies twice. -/
theorem run_rsync_notification_counts_witness :
    ((run_rsync okDiskEnv).notifs).length = 1
    ∧ ((run_rsync lowDiskEnv).notifs).length = 2 := by
  exact ⟨(run_rsync_notification_counts okDiskEnv rfl rfl).1 rfl (by decide),
    (run_rsync_notification_counts lowDiskEnv rfl rfl).2 rfl⟩

/-- C3 counterexample: the aborted (insufficient disk space) terminal
outcome produces TWO `send_telegram` calls, not one — `_check_disk_space`
sends the low-space alert itself and `run_rsync` then sends the aborted
message. -/
theorem run_rsync_aborted_two_notifications_cex :
    (run_rsync lowDiskEnv).notifs = [.lowSpaceAlert, .abortedDiskIssue]
    ∧ ((run_rsync lowDiskEnv).notifs).length ≠ 1 := by
  exact ⟨rfl, by decide⟩

/-! ## Claim C1 -/

/-- C1: `run_rsync` validates its direction argument.  The supported
direction is the literal `"from"` (the spec's "pull" direction: data is
pulled from the remote source into the local destination).  Any other
value makes the run log the error, send exactly one configuration-error
notification, and return without ever invoking the transfer tool; a
supported-direction run with a defined source, a passing disk gate and at
least one allowed attempt does invoke it. -/
theorem run_rsync_direction_validation :
    (∀ env : RunEnv, env.direction ≠ "from" →
        run_rsync env = ⟨false, [.invalidDirection], [], 0, true⟩)
    ∧ (∀ env : RunEnv, env.direction = "from" → env.srcDefined = true →
        (check_disk_space env.disk env.thresholdGb).1 = true →
        1 ≤ env.maxRetries →
        (run_rsync env).invoked = true) := by
  constructor
  · intro env h
    unfold run_rsync
    rw [if_neg h]
  · intro env hd hs hg hm
    rw [run_rsync_gate_ok env hd hs hg]
    show (env.maxRetries != 0) = true
    simp only [bne_iff_ne, ne_eq]
    omega

/-- The environment of C1's witness: an unsupported direction value. -/
def badDirectionEnv : RunEnv := ⟨"to", true, .ok 50, 10, 3, 5, fun _ => .timedOut⟩

/-- Witness for C1: the unsupported direction `"to"` aborts with a single
configuration-error notification, no attempt and the error logged, while
a `"from"` run under a passing gate invokes the tool. -/
theorem run_rsync_direction_validation_witness :
    run_rsync badDirectionEnv = ⟨false, [.invalidDirection], [], 0, true⟩
    ∧ (run_rsync okDiskEnv).invoked = true := by
  exact ⟨run_rsync_direction_validation.1 badDirectionEnv (by decide),
    run_rsync_direction_validation.2 okDiskEnv rfl rfl rfl (by decide)⟩

end RsyncDocker
